import Mathlib

/-!
Verification of the diagnostic rule engine of `src/app.py` (a rule-based
condition-monitoring calculator for motor-pump assemblies).

The pure rule functions of the source are shallowly embedded over `ℚ`
(operator-entered readings are non-negative decimals; all comparisons and
arithmetic in the source are exact at the inputs of interest).  Display-only
payload — emoji colour strings, the Indonesian recommendation sentences, and
numeric interpolation inside f-strings — is not part of the decision logic;
issue lists are embedded as small inductive types that record which rule
fired and with which computed percentage, and status/zone/level strings are
kept verbatim where the control flow branches on them.
-/

namespace PumpDiag

/-- Machine size group keys of `ISO_10816_THRESHOLDS` (the UI selectbox
offers exactly these four). -/
inductive MachineGroup
  | group1
  | group2
  | group3
  | group4
deriving DecidableEq

/-- Foundation keys of `ISO_10816_THRESHOLDS` (the UI selectbox offers
exactly these two). -/
inductive Foundation
  | rigid
  | flexible
deriving DecidableEq

/-- One row of the ISO threshold table: upper boundaries of zones A, B, C. -/
structure Thresholds where
  A : ℚ
  B : ℚ
  C : ℚ
deriving DecidableEq

/-- `ISO_10816_THRESHOLDS` of `src/app.py` (lines 24-41). -/
def ISO_10816_THRESHOLDS : MachineGroup → Foundation → Thresholds
  | .group1, .rigid => ⟨2.8, 4.5, 7.1⟩
  | .group1, .flexible => ⟨4.5, 7.1, 11.2⟩
  | .group2, .rigid => ⟨1.8, 2.8, 4.5⟩
  | .group2, .flexible => ⟨2.8, 4.5, 7.1⟩
  | .group3, .rigid => ⟨2.8, 4.5, 7.1⟩
  | .group3, .flexible => ⟨2.8, 4.5, 7.1⟩
  | .group4, .rigid => ⟨1.8, 4.5, 7.1⟩
  | .group4, .flexible => ⟨2.8, 7.1, 11.2⟩

/-- `API_610_LIMITS['Normal']` (`src/app.py` line 45). -/
def API_610_Normal : ℚ := 3.0

/-- `API_610_LIMITS['Alert']` (`src/app.py` line 46). -/
def API_610_Alert : ℚ := 4.5

/-- `API_610_LIMITS['Trip']` (`src/app.py` line 47). -/
def API_610_Trip : ℚ := 7.1

/-- `IEC_VOLTAGE_UNBALANCE_MAX` (`src/app.py` line 51). -/
def IEC_VOLTAGE_UNBALANCE_MAX : ℚ := 1.0

/-- `IEC_CURRENT_UNBALANCE_MAX` (`src/app.py` line 52). -/
def IEC_CURRENT_UNBALANCE_MAX : ℚ := 10.0

/-- `TEMP_LIMITS` (`src/app.py` lines 55-60). -/
def TEMP_Normal : ℚ := 70

/-- `TEMP_LIMITS['Warning']`. -/
def TEMP_Warning : ℚ := 85

/-- `TEMP_LIMITS['Critical']`. -/
def TEMP_Critical : ℚ := 95

/-- `ACC_LIMITS['Normal']` (`src/app.py` line 64). -/
def ACC_Normal : ℚ := 3.0

/-- `ACC_LIMITS['Warning']` (`src/app.py` line 65). -/
def ACC_Warning : ℚ := 5.0

/-- `ACC_LIMITS['Critical']` (`src/app.py` line 66). -/
def ACC_Critical : ℚ := 10.0

/-- Result record of `get_iso_severity`: the 5-tuple
`(zone, color, limit, standard, level)` returned at `src/app.py` 81-87. -/
structure SeverityResult where
  zone : String
  color : String
  limit : ℚ
  standard : String
  level : String
deriving DecidableEq

/-- Rendering of a `MachineGroup` key, as interpolated into the standard
name f-string of `get_iso_severity`. -/
def groupName : MachineGroup → String
  | .group1 => "Group 1"
  | .group2 => "Group 2"
  | .group3 => "Group 3"
  | .group4 => "Group 4"

/-- Rendering of a `Foundation` key. -/
def foundationName : Foundation → String
  | .rigid => "Rigid"
  | .flexible => "Flexible"

/-- `get_iso_severity` (`src/app.py` lines 73-87). -/
def get_iso_severity (group : MachineGroup) (foundation : Foundation)
    (max_velocity : ℚ) : SeverityResult :=
  if max_velocity < (ISO_10816_THRESHOLDS group foundation).A then
    ⟨"Zone A (Good)", "🟢", (ISO_10816_THRESHOLDS group foundation).A,
      "ISO 10816-3 (" ++ groupName group ++ ", " ++ foundationName foundation ++ ")", "normal"⟩
  else if max_velocity < (ISO_10816_THRESHOLDS group foundation).B then
    ⟨"Zone B (Satisfactory)", "🟡", (ISO_10816_THRESHOLDS group foundation).B,
      "ISO 10816-3 (" ++ groupName group ++ ", " ++ foundationName foundation ++ ")", "warning"⟩
  else if max_velocity < (ISO_10816_THRESHOLDS group foundation).C then
    ⟨"Zone C (Unsatisfactory)", "🟠", (ISO_10816_THRESHOLDS group foundation).C,
      "ISO 10816-3 (" ++ groupName group ++ ", " ++ foundationName foundation ++ ")", "critical"⟩
  else
    ⟨"Zone D (Unacceptable)", "🔴", (ISO_10816_THRESHOLDS group foundation).C,
      "ISO 10816-3 (" ++ groupName group ++ ", " ++ foundationName foundation ++ ")", "critical"⟩

/-- Result record of `get_api_610_status`: the 4-tuple
`(zone, color, limit, level)` returned at `src/app.py` 93-100. -/
structure Api610Result where
  zone : String
  color : String
  limit : ℚ
  level : String
deriving DecidableEq

/-- `get_api_610_status` (`src/app.py` lines 89-100). -/
def get_api_610_status (max_velocity : ℚ) : Api610Result :=
  if max_velocity < API_610_Normal then
    ⟨"✅ Acceptable", "🟢", API_610_Normal, "normal"⟩
  else if max_velocity < API_610_Alert then
    ⟨"⚠️ Alert", "🟡", API_610_Alert, "warning"⟩
  else if max_velocity < API_610_Trip then
    ⟨"🛑 Trip Warning", "🟠", API_610_Trip, "critical"⟩
  else
    ⟨"🚨 Trip Required", "🔴", API_610_Trip, "critical"⟩

/-- `diagnose_fault` (`src/app.py` lines 102-127).  Returns the fault label
(first component of the Python pair); the justification f-string (second
component, display only) is not modelled — `none` stands for the
`(None, None)` returns.  The local `ratio_a`, `ratio_v`, `ratio_h` are
inlined as `a / sum_velocity` etc. -/
def diagnose_fault (h v a sum_velocity : ℚ) : Option String :=
  if sum_velocity = 0 then none
  else if a / sum_velocity > 0.5 ∨ (a > h ∧ a > v ∧ a > 2.0) then
    some "Misalignment"
  else if a / sum_velocity < 0.3 ∧ (v / sum_velocity > 0.35 ∨ h / sum_velocity > 0.35) then
    some "Unbalance"
  else if v > 1.5 * h ∧ v > 2.0 then
    some "Mechanical Looseness"
  else none

/-- `check_temperature` (`src/app.py` lines 129-139): returns the pair
(status string, level); the reason f-string (display only) is not
modelled. -/
def check_temperature (temp : ℚ) : String × String :=
  if temp = 0 then ("⚪ No Data", "normal")
  else if temp < TEMP_Normal then ("🟢 Normal", "normal")
  else if temp < TEMP_Warning then ("🟡 Warning", "warning")
  else if temp < TEMP_Critical then ("🟠 Critical", "critical")
  else ("🔴 Overheat", "critical")

/-- `np.mean([x, y, z])` as used in `check_electrical`. -/
def avg3 (x y z : ℚ) : ℚ := (x + y + z) / 3

/-- `max([abs(p - avg) for p in [x, y, z]])` with `avg = avg3 x y z`, as
computed in `check_electrical` (lines 148 and 165). -/
def maxDev3 (x y z : ℚ) : ℚ :=
  max |x - avg3 x y z| (max |y - avg3 x y z| |z - avg3 x y z|)

/-- The guarded unbalance percentage of `check_electrical` (lines 147-151
for voltage, 164-168 for current): `(max_dev / avg) * 100` when the average
is positive, `0` otherwise. -/
def unbalance_pct (x y z : ℚ) : ℚ :=
  if avg3 x y z > 0 then maxDev3 x y z / avg3 x y z * 100 else 0

/-- Issues appended by `check_electrical`; the constructors carry the
computed percentage where the Python issue string interpolates it. -/
inductive EIssue
  | UnderVoltage
  | VoltageUnbalance (pct : ℚ)
  | UnderLoading
  | OverLoading
  | CurrentUnbalance (pct : ℚ)
  | MinorCurrentUnbalance (pct : ℚ)
deriving DecidableEq

/-- The voltage if/elif chain of `check_electrical` (lines 154-161). -/
def voltage_issues (v_r v_s v_t rated_voltage : ℚ) : List EIssue :=
  if avg3 v_r v_s v_t > 0 ∧ avg3 v_r v_s v_t < rated_voltage * 0.9 then
    [EIssue.UnderVoltage]
  else if unbalance_pct v_r v_s v_t > IEC_VOLTAGE_UNBALANCE_MAX then
    [EIssue.VoltageUnbalance (unbalance_pct v_r v_s v_t)]
  else []

/-- The load block of `check_electrical` (lines 170-178):
`load_pct = (avg_i / fla) * 100`. -/
def load_issues (i_r i_s i_t fla : ℚ) : List EIssue :=
  if fla > 0 ∧ avg3 i_r i_s i_t > 0 then
    if avg3 i_r i_s i_t / fla * 100 < 40 then [EIssue.UnderLoading]
    else if avg3 i_r i_s i_t / fla * 100 > 100 then [EIssue.OverLoading]
    else []
  else []

/-- The current-unbalance if/elif chain of `check_electrical`
(lines 180-186). -/
def current_issues (i_r i_s i_t : ℚ) : List EIssue :=
  if unbalance_pct i_r i_s i_t > IEC_CURRENT_UNBALANCE_MAX then
    [EIssue.CurrentUnbalance (unbalance_pct i_r i_s i_t)]
  else if unbalance_pct i_r i_s i_t > 5 then
    [EIssue.MinorCurrentUnbalance (unbalance_pct i_r i_s i_t)]
  else []

/-- All issues accumulated by `check_electrical` (lines 141-186), in
append order: voltage chain, then load block, then current chain. -/
def electrical_issues (v_r v_s v_t i_r i_s i_t fla rated_voltage : ℚ) : List EIssue :=
  voltage_issues v_r v_s v_t rated_voltage ++ load_issues i_r i_s i_t fla ++
    current_issues i_r i_s i_t

/-- `check_electrical` (`src/app.py` lines 141-191), restricted to the
issue list and the final severity level (`"normal"` from line 189,
`"warning"` from line 191); the status/recommendation/standards display
strings are not modelled. -/
def check_electrical (v_r v_s v_t i_r i_s i_t fla rated_voltage : ℚ) :
    List EIssue × String :=
  if electrical_issues v_r v_s v_t i_r i_s i_t fla rated_voltage = [] then
    (electrical_issues v_r v_s v_t i_r i_s i_t fla rated_voltage, "normal")
  else
    (electrical_issues v_r v_s v_t i_r i_s i_t fla rated_voltage, "warning")

/-- Issues appended by `check_hydraulic`; constructors carry the computed
percentage where the Python issue string interpolates it. -/
inductive HIssue
  | Cavitation
  | CriticalSuction
  | LowDeltaP
  | OffBEP (pct : ℚ)
  | RPMDeviation (pct : ℚ)
deriving DecidableEq

/-- All issues accumulated by `check_hydraulic` (`src/app.py` lines
193-228), in append order: the suction if/elif chain (201-207), the
differential-pressure check (210-212) with `delta_p = discharge_p -
suction_p`, the BEP block (215-221) with `head_pressure_bar = head_h /
10.2` and `efficiency_indicator = (delta_p / head_pressure_bar) * 100`,
and the RPM block (224-228) with
`rpm_deviation = abs(actual_rpm - rated_rpm) / rated_rpm * 100`. -/
def hydraulic_issues (suction_p discharge_p flow_q head_h actual_rpm rated_rpm : ℚ) :
    List HIssue :=
  (if suction_p < 1.0 ∧ discharge_p > 2.0 then [HIssue.Cavitation]
   else if suction_p < 0.5 then [HIssue.CriticalSuction]
   else []) ++
  (if discharge_p - suction_p < 1.0 ∧ discharge_p > 0 then [HIssue.LowDeltaP]
   else []) ++
  (if flow_q > 0 ∧ head_h > 0 then
     if discharge_p - suction_p > 0 ∧ head_h / 10.2 > 0 then
       if (discharge_p - suction_p) / (head_h / 10.2) * 100 < 70 then
         [HIssue.OffBEP ((discharge_p - suction_p) / (head_h / 10.2) * 100)]
       else []
     else []
   else []) ++
  (if rated_rpm > 0 ∧ actual_rpm > 0 then
     if |actual_rpm - rated_rpm| / rated_rpm * 100 > 5 then
       [HIssue.RPMDeviation (|actual_rpm - rated_rpm| / rated_rpm * 100)]
     else []
   else [])

/-- `check_hydraulic` (`src/app.py` lines 193-233), restricted to the issue
list and the final severity level (`"normal"` from line 231, `"warning"`
from line 233). -/
def check_hydraulic (suction_p discharge_p flow_q head_h actual_rpm rated_rpm : ℚ) :
    List HIssue × String :=
  if hydraulic_issues suction_p discharge_p flow_q head_h actual_rpm rated_rpm = [] then
    (hydraulic_issues suction_p discharge_p flow_q head_h actual_rpm rated_rpm, "normal")
  else
    (hydraulic_issues suction_p discharge_p flow_q head_h actual_rpm rated_rpm, "warning")

/-- The inline bearing-acceleration evaluation of the report loop
(`src/app.py` lines 461-483): the status string computed from the three
band magnitudes, with `total = b1 + b2 + b3` and
`hf_ratio = b3 / total` (computed only when `total > 0`). -/
def bearing_acc_status (b1 b2 b3 : ℚ) : String :=
  if b1 + b2 + b3 > 0 then
    if b1 + b2 + b3 ≥ ACC_Critical then "🔴 Bearing Damage"
    else if b3 / (b1 + b2 + b3) > 0.4 ∨ b3 ≥ 3.0 ∨ b1 + b2 + b3 ≥ ACC_Warning then
      "🟠 Early Bearing Fault"
    else if b1 + b2 + b3 ≥ ACC_Normal then "🟡 Warning"
    else "✅ Bearing OK"
  else "✅ Bearing OK"

/-- Checked division: `none` exactly when a Python `x / y` would raise
`ZeroDivisionError`.  The `*_checked` re-embeddings below replace every
division whose divisor is a computed quantity by `cdiv`; proving them equal
to `some` of the direct embeddings shows every such division in the source
sits behind a zero guard. -/
def cdiv (x y : ℚ) : Option ℚ := if y = 0 then none else some (x / y)

/-- `diagnose_fault` with its three ratio divisions checked. -/
def diagnose_fault_checked (h v a sum_velocity : ℚ) : Option (Option String) :=
  if sum_velocity = 0 then some none
  else
    (cdiv a sum_velocity).bind fun ratio_a =>
    (cdiv v sum_velocity).bind fun ratio_v =>
    (cdiv h sum_velocity).bind fun ratio_h =>
    some (if ratio_a > 0.5 ∨ (a > h ∧ a > v ∧ a > 2.0) then some "Misalignment"
      else if ratio_a < 0.3 ∧ (ratio_v > 0.35 ∨ ratio_h > 0.35) then some "Unbalance"
      else if v > 1.5 * h ∧ v > 2.0 then some "Mechanical Looseness"
      else none)

/-- `unbalance_pct` with its division over the average checked. -/
def unbalance_pct_checked (x y z : ℚ) : Option ℚ :=
  if avg3 x y z > 0 then
    (cdiv (maxDev3 x y z) (avg3 x y z)).bind fun r => some (r * 100)
  else some 0

/-- The voltage chain with checked unbalance computation. -/
def voltage_issues_checked (v_r v_s v_t rated_voltage : ℚ) : Option (List EIssue) :=
  (unbalance_pct_checked v_r v_s v_t).bind fun v_unbalance =>
  some (if avg3 v_r v_s v_t > 0 ∧ avg3 v_r v_s v_t < rated_voltage * 0.9 then
      [EIssue.UnderVoltage]
    else if v_unbalance > IEC_VOLTAGE_UNBALANCE_MAX then
      [EIssue.VoltageUnbalance v_unbalance]
    else [])

/-- The load block with the `avg_i / fla` division checked. -/
def load_issues_checked (i_r i_s i_t fla : ℚ) : Option (List EIssue) :=
  if fla > 0 ∧ avg3 i_r i_s i_t > 0 then
    (cdiv (avg3 i_r i_s i_t) fla).bind fun r =>
    some (if r * 100 < 40 then [EIssue.UnderLoading]
      else if r * 100 > 100 then [EIssue.OverLoading]
      else [])
  else some []

/-- The current chain with checked unbalance computation. -/
def current_issues_checked (i_r i_s i_t : ℚ) : Option (List EIssue) :=
  (unbalance_pct_checked i_r i_s i_t).bind fun i_unbalance =>
  some (if i_unbalance > IEC_CURRENT_UNBALANCE_MAX then
      [EIssue.CurrentUnbalance i_unbalance]
    else if i_unbalance > 5 then
      [EIssue.MinorCurrentUnbalance i_unbalance]
    else [])

/-- `electrical_issues` with every division checked. -/
def electrical_issues_checked (v_r v_s v_t i_r i_s i_t fla rated_voltage : ℚ) :
    Option (List EIssue) :=
  (voltage_issues_checked v_r v_s v_t rated_voltage).bind fun a =>
  (load_issues_checked i_r i_s i_t fla).bind fun b =>
  (current_issues_checked i_r i_s i_t).bind fun c =>
  some (a ++ b ++ c)

/-- `hydraulic_issues` with the efficiency and RPM-deviation divisions
checked (`head_h / 10.2` divides by a non-zero literal and stays plain). -/
def hydraulic_issues_checked (suction_p discharge_p flow_q head_h actual_rpm rated_rpm : ℚ) :
    Option (List HIssue) :=
  (if flow_q > 0 ∧ head_h > 0 then
     if discharge_p - suction_p > 0 ∧ head_h / 10.2 > 0 then
       (cdiv (discharge_p - suction_p) (head_h / 10.2)).bind fun r =>
       some (if r * 100 < 70 then [HIssue.OffBEP (r * 100)] else [])
     else some []
   else some []).bind fun bep =>
  (if rated_rpm > 0 ∧ actual_rpm > 0 then
     (cdiv |actual_rpm - rated_rpm| rated_rpm).bind fun r =>
     some (if r * 100 > 5 then [HIssue.RPMDeviation (r * 100)] else [])
   else some []).bind fun rpm =>
  some
    ((if suction_p < 1.0 ∧ discharge_p > 2.0 then [HIssue.Cavitation]
      else if suction_p < 0.5 then [HIssue.CriticalSuction]
      else []) ++
     (if discharge_p - suction_p < 1.0 ∧ discharge_p > 0 then [HIssue.LowDeltaP]
      else []) ++ bep ++ rpm)

/-- `bearing_acc_status` with the `b3 / total` division checked. -/
def bearing_acc_status_checked (b1 b2 b3 : ℚ) : Option String :=
  if b1 + b2 + b3 > 0 then
    (cdiv b3 (b1 + b2 + b3)).bind fun hf_ratio =>
    some (if b1 + b2 + b3 ≥ ACC_Critical then "🔴 Bearing Damage"
      else if hf_ratio > 0.4 ∨ b3 ≥ 3.0 ∨ b1 + b2 + b3 ≥ ACC_Warning then
        "🟠 Early Bearing Fault"
      else if b1 + b2 + b3 ≥ ACC_Normal then "🟡 Warning"
      else "✅ Bearing OK")
  else some "✅ Bearing OK"

/-- Zone and level selected for one bearing in the report loop
(`src/app.py` lines 395-399): the API 610 table when the point is a pump
bearing and the API standard is selected, else the ISO table. -/
def bearing_severity (group : MachineGroup) (foundation : Foundation)
    (pumpStdAPI is_pump : Bool) (max_v : ℚ) : String × String :=
  if is_pump && pumpStdAPI then
    ((get_api_610_status max_v).zone, (get_api_610_status max_v).level)
  else
    ((get_iso_severity group foundation max_v).zone,
     (get_iso_severity group foundation max_v).level)

/-- Fault lookup of the report loop (`src/app.py` lines 402-405): run only
when the severity level is warning or critical and `max_v > 0`. -/
def bearing_fault (severity_level : String) (h v a max_v sum_v : ℚ) : Option String :=
  if (severity_level = "warning" ∨ severity_level = "critical") ∧ max_v > 0 then
    diagnose_fault h v a sum_v
  else none

/-- The `final_report` entries one bearing appends in the report loop
(`src/app.py` lines 425-451), in source order: the critical-vibration
block (426-436), the temperature block (438-446), and the
warning-with-fault block (448-451).  The appended f-strings interpolate
only strings (bearing name, fault, zone, temperature status) and are
rendered verbatim.  `max_v = max(h, v, a)` and `sum_v = h + v + a` as
stored at lines 315-321. -/
def bearing_report_entries (b_name : String) (group : MachineGroup)
    (foundation : Foundation) (pumpStdAPI is_pump : Bool) (h v a temp : ℚ) :
    List String :=
  let max_v := max (max h v) a
  let sum_v := h + v + a
  let sev := bearing_severity group foundation pumpStdAPI is_pump max_v
  let fault := bearing_fault sev.2 h v a max_v sum_v
  let tempres := check_temperature temp
  (if sev.2 = "critical" then
     match fault with
     | some f => [b_name ++ ": " ++ f ++ " (" ++ sev.1 ++ ")"]
     | none => [b_name ++ ": CRITICAL VIBRATION (" ++ sev.1 ++ ") - Requires Immediate Investigation"]
   else []) ++
  (if tempres.2 = "critical" then
     if ¬(sev.2 = "critical" ∧ fault = none) then
       [b_name ++ ": Temp " ++ tempres.1]
     else []
   else if tempres.2 = "warning" ∧ sev.2 ≠ "critical" then
     [b_name ++ ": Temp " ++ tempres.1]
   else []) ++
  (match fault with
   | some f => if sev.2 = "warning" then [b_name ++ ": " ++ f ++ " (" ++ sev.1 ++ ")"] else []
   | none => [])

/-- Character-list prefix test (used to embed Python's substring operator
`in`). -/
def charsPre : List Char → List Char → Bool
  | [], _ => true
  | _ :: _, [] => false
  | p :: ps, c :: cs => p == c && charsPre ps cs

/-- Character-list substring test. -/
def charsSub (pat : List Char) : List Char → Bool
  | [] => pat.isEmpty
  | c :: cs => charsPre pat (c :: cs) || charsSub pat cs

/-- Python's `pat in item` on strings. -/
def strContainsSub (item pat : String) : Bool := charsSub pat.toList item.toList

/-- One disjunct of the `critical_conditions` comprehension of the final
summary (`src/app.py` lines 533-536). -/
def critical_item (item : String) : Bool :=
  strContainsSub item "Zone D" || strContainsSub item "Trip Required" ||
    strContainsSub item "Overheat" || strContainsSub item "Bearing Damage" ||
    strContainsSub item "Critical Suction"

/-- The final safety summary (`src/app.py` lines 528-541), reduced to the
three mutually exclusive banners: the all-clear `STATUS AMAN` success when
`final_report` is empty, the shutdown banner when any entry matches a
critical condition, and the warning banner otherwise. -/
def safety_conclusion (final_report : List String) : String :=
  if final_report.isEmpty then "STATUS AMAN"
  else if final_report.any critical_item then
    "KONDISI KRITIS TERDETEKSI - SHUTDOWN SEGERA DIPERLUKAN"
  else "KONDISI TIDAK NORMAL TERDETEKSI"

/-- Ordinal encoding of the severity levels, `normal < warning <
critical`, used to state monotonicity of the classifiers. -/
def levelRank (level : String) : ℕ :=
  if level = "normal" then 0 else if level = "warning" then 1 else 2

/-! ### Helper lemmas -/

lemma check_electrical_fst (v_r v_s v_t i_r i_s i_t fla rated_voltage : ℚ) :
    (check_electrical v_r v_s v_t i_r i_s i_t fla rated_voltage).1 =
      electrical_issues v_r v_s v_t i_r i_s i_t fla rated_voltage := by
  unfold check_electrical
  split_ifs <;> rfl

lemma check_hydraulic_fst (suction_p discharge_p flow_q head_h actual_rpm rated_rpm : ℚ) :
    (check_hydraulic suction_p discharge_p flow_q head_h actual_rpm rated_rpm).1 =
      hydraulic_issues suction_p discharge_p flow_q head_h actual_rpm rated_rpm := by
  unfold check_hydraulic
  split_ifs <;> rfl

lemma underVoltage_not_mem_load (i_r i_s i_t fla : ℚ) :
    EIssue.UnderVoltage ∉ load_issues i_r i_s i_t fla := by
  unfold load_issues
  split_ifs <;> simp

lemma underVoltage_not_mem_current (i_r i_s i_t : ℚ) :
    EIssue.UnderVoltage ∉ current_issues i_r i_s i_t := by
  unfold current_issues
  split_ifs <;> simp

lemma voltageUnbalance_not_mem_load (i_r i_s i_t fla p : ℚ) :
    EIssue.VoltageUnbalance p ∉ load_issues i_r i_s i_t fla := by
  unfold load_issues
  split_ifs <;> simp

lemma voltageUnbalance_not_mem_current (i_r i_s i_t p : ℚ) :
    EIssue.VoltageUnbalance p ∉ current_issues i_r i_s i_t := by
  unfold current_issues
  split_ifs <;> simp

lemma unbalance_pct_300_340_340 : unbalance_pct 300 340 340 = 400 / 49 := by
  unfold unbalance_pct maxDev3 avg3
  rw [if_pos (by norm_num), abs_sub_comm (300:ℚ), abs_sub_comm (340:ℚ)]
  rw [abs_of_nonneg (show (0:ℚ) ≤ (300 + 340 + 340) / 3 - 300 by norm_num),
      abs_of_nonpos (show (300 + 340 + 340 : ℚ) / 3 - 340 ≤ 0 by norm_num)]
  norm_num

lemma unbalance_pct_10_20_30 : unbalance_pct 10 20 30 = 50 := by
  unfold unbalance_pct maxDev3 avg3
  norm_num

lemma unbalance_pct_342_380_380 : unbalance_pct 342 380 380 = 200 / 29 := by
  unfold unbalance_pct maxDev3 avg3
  rw [if_pos (by norm_num), abs_sub_comm (342:ℚ), abs_sub_comm (380:ℚ)]
  rw [abs_of_nonneg (show (0:ℚ) ≤ (342 + 380 + 380) / 3 - 342 by norm_num)]
  rw [abs_of_nonpos (show (342 + 380 + 380 : ℚ) / 3 - 380 ≤ 0 by norm_num)]
  norm_num

/-! ### Claim theorems -/

/-- Claim C1 (counterexample): at h=1, v=2.5, a=0.5 (the spec's own
boundary-adjusted example) the Unbalance conditions and the Mechanical
Looseness conditions hold simultaneously and the Misalignment conditions do
not, yet `diagnose_fault` returns "Unbalance", not "Mechanical Looseness":
the Unbalance branch returns first, so Looseness does not supersede it. -/
theorem C1_counterexample :
    ((0.5:ℚ) / (1 + 2.5 + 0.5) < 0.3 ∧
      ((2.5:ℚ) / (1 + 2.5 + 0.5) > 0.35 ∨ (1:ℚ) / (1 + 2.5 + 0.5) > 0.35)) ∧
    ((2.5:ℚ) > 1.5 * 1 ∧ (2.5:ℚ) > 2.0) ∧
    ¬((0.5:ℚ) / (1 + 2.5 + 0.5) > 0.5 ∨
      ((0.5:ℚ) > 1 ∧ (0.5:ℚ) > 2.5 ∧ (0.5:ℚ) > 2.0)) ∧
    diagnose_fault 1 2.5 0.5 (1 + 2.5 + 0.5) = some "Unbalance" ∧
    diagnose_fault 1 2.5 0.5 (1 + 2.5 + 0.5) ≠ some "Mechanical Looseness" := by
  norm_num [diagnose_fault]
  decide

/-- Claim C1 (amended): for non-negative h, v, a with positive sum, when
the Misalignment conditions fail and both the Unbalance and the Mechanical
Looseness conditions hold, `diagnose_fault` returns "Unbalance" — the
branches are checked in fixed order with first match wins, so Unbalance
takes priority over the simultaneous Looseness match. -/
theorem C1_unbalance_wins (h v a : ℚ) (hh : 0 ≤ h) (hv : 0 ≤ v) (ha : 0 ≤ a)
    (hsum : 0 < h + v + a)
    (hmis : ¬(a / (h + v + a) > 0.5 ∨ (a > h ∧ a > v ∧ a > 2.0)))
    (hunb : a / (h + v + a) < 0.3 ∧
      (v / (h + v + a) > 0.35 ∨ h / (h + v + a) > 0.35))
    (hloose : v > 1.5 * h ∧ v > 2.0) :
    diagnose_fault h v a (h + v + a) = some "Unbalance" := by
  unfold diagnose_fault
  rw [if_neg hsum.ne', if_neg hmis, if_pos hunb]

/-- Claim C1 witness: the amended theorem applied at h=1, v=2.5, a=0.5. -/
theorem C1_unbalance_wins_witness :
    (0:ℚ) < 1 + 2.5 + 0.5 ∧
    ((2.5:ℚ) > 1.5 * 1 ∧ (2.5:ℚ) > 2.0) ∧
    diagnose_fault 1 2.5 0.5 (1 + 2.5 + 0.5) = some "Unbalance" :=
  ⟨by norm_num, by norm_num,
    C1_unbalance_wins 1 2.5 0.5 (by norm_num) (by norm_num) (by norm_num)
      (by norm_num) (by norm_num) (by norm_num) (by norm_num)⟩

/-- Claim C2 (counterexample): for suction 0.3 (below 0.5) with discharge
6.0, `check_hydraulic` does not include "Critical Suction Pressure" — the
suction chain is an if/elif, and the cavitation branch (suction < 1.0 and
discharge > 2.0) fires first, so the critical-suction flag is not
independent of the discharge value. -/
theorem C2_counterexample :
    (0.3:ℚ) < 0.5 ∧
    (check_hydraulic 0.3 6.0 0 0 0 0).1 = [HIssue.Cavitation] ∧
    HIssue.CriticalSuction ∉ (check_hydraulic 0.3 6.0 0 0 0 0).1 := by
  refine ⟨by norm_num, ?_, ?_⟩ <;>
    rw [check_hydraulic_fst] <;> norm_num [hydraulic_issues] <;> decide

/-- Claim C2 (amended): for every suction pressure below 0.5, "Critical
Suction Pressure" is included in the `check_hydraulic` status whenever the
discharge pressure is at most 2.0 (when discharge exceeds 2.0 the
cavitation branch fires instead and only "Risk of Cavitation" is flagged);
and for suction = 0.8 with discharge = 6.0 the status includes "Risk of
Cavitation". -/
theorem C2_critical_suction (suction_p discharge_p flow_q head_h actual_rpm rated_rpm : ℚ) :
    (suction_p < 0.5 → discharge_p ≤ 2.0 →
      HIssue.CriticalSuction ∈
        (check_hydraulic suction_p discharge_p flow_q head_h actual_rpm rated_rpm).1) ∧
    (suction_p < 1.0 → discharge_p > 2.0 →
      HIssue.Cavitation ∈
        (check_hydraulic suction_p discharge_p flow_q head_h actual_rpm rated_rpm).1) ∧
    HIssue.Cavitation ∈ (check_hydraulic 0.8 6.0 0 0 0 0).1 := by
  refine ⟨fun h1 h2 => ?_, fun h1 h2 => ?_, ?_⟩
  · rw [check_hydraulic_fst]
    unfold hydraulic_issues
    rw [if_neg (fun hc => absurd hc.2 (not_lt.mpr h2)), if_pos h1]
    simp
  · rw [check_hydraulic_fst]
    unfold hydraulic_issues
    rw [if_pos ⟨h1, h2⟩]
    simp
  · rw [check_hydraulic_fst]
    norm_num [hydraulic_issues]

/-- Claim C2 witness: the amended theorem applied at suction 0.3 with
discharge 1.0 (critical-suction case) and at suction 0.8 with discharge
6.0 (cavitation case). -/
theorem C2_critical_suction_witness :
    (0.3:ℚ) < 0.5 ∧ (1.0:ℚ) ≤ 2.0 ∧
    HIssue.CriticalSuction ∈ (check_hydraulic 0.3 1.0 0 0 0 0).1 ∧
    HIssue.Cavitation ∈ (check_hydraulic 0.8 6.0 0 0 0 0).1 :=
  ⟨by norm_num, by norm_num,
    (C2_critical_suction 0.3 1.0 0 0 0 0).1 (by norm_num) (by norm_num),
    (C2_critical_suction 0.8 6.0 0 0 0 0).2.2⟩

/-- Claim C3 (counterexample): for phase voltages 300/340/340 with rated
voltage 380, the average (980/3 ≈ 326.7) is below 90% of rated AND the
voltage unbalance (400/49 ≈ 8.2%) exceeds the 1.0% limit, yet
`check_electrical` flags only "Under Voltage": the voltage rules are an
if/elif chain, so "Voltage Unbalance" does not also appear. -/
theorem C3_counterexample :
    avg3 300 340 340 > 0 ∧ avg3 300 340 340 < 380 * 0.9 ∧
    unbalance_pct 300 340 340 > IEC_VOLTAGE_UNBALANCE_MAX ∧
    (check_electrical 300 340 340 0 0 0 100 380).1 = [EIssue.UnderVoltage] := by
  refine ⟨by norm_num [avg3], by norm_num [avg3], ?_, ?_⟩
  · rw [unbalance_pct_300_340_340]
    norm_num [IEC_VOLTAGE_UNBALANCE_MAX]
  · rw [check_electrical_fst]
    unfold electrical_issues voltage_issues load_issues current_issues
    norm_num [unbalance_pct, avg3, maxDev3, IEC_CURRENT_UNBALANCE_MAX]

/-- Claim C3 (amended): `check_electrical` accumulates issues across its
three rule groups (voltage chain, load block, current chain) into one
composite status — in particular a current unbalance above the 10% limit is
flagged together with any voltage-chain issue — but within the voltage
chain the rules are exclusive: whenever the average voltage is positive and
below 90% of rated, "Under Voltage" appears and "Voltage Unbalance" does
not (Under Voltage supersedes it). -/
theorem C3_accumulation (v_r v_s v_t i_r i_s i_t fla rated_voltage : ℚ) :
    (check_electrical v_r v_s v_t i_r i_s i_t fla rated_voltage).1 =
      electrical_issues v_r v_s v_t i_r i_s i_t fla rated_voltage ∧
    (avg3 v_r v_s v_t > 0 → avg3 v_r v_s v_t < rated_voltage * 0.9 →
      EIssue.UnderVoltage ∈ electrical_issues v_r v_s v_t i_r i_s i_t fla rated_voltage ∧
      ∀ p, EIssue.VoltageUnbalance p ∉
        electrical_issues v_r v_s v_t i_r i_s i_t fla rated_voltage) ∧
    (unbalance_pct i_r i_s i_t > IEC_CURRENT_UNBALANCE_MAX →
      EIssue.CurrentUnbalance (unbalance_pct i_r i_s i_t) ∈
        electrical_issues v_r v_s v_t i_r i_s i_t fla rated_voltage) := by
  refine ⟨check_electrical_fst v_r v_s v_t i_r i_s i_t fla rated_voltage,
    fun h1 h2 => ⟨?_, fun p => ?_⟩, fun h => ?_⟩
  · unfold electrical_issues voltage_issues
    rw [if_pos ⟨h1, h2⟩]
    simp
  · unfold electrical_issues voltage_issues
    rw [if_pos ⟨h1, h2⟩]
    simp only [List.mem_append, List.mem_singleton]
    rintro ((hc | hc) | hc)
    · exact absurd hc (by simp)
    · exact voltageUnbalance_not_mem_load i_r i_s i_t fla p hc
    · exact voltageUnbalance_not_mem_current i_r i_s i_t p hc
  · unfold electrical_issues current_issues
    rw [if_pos h]
    simp

/-- Claim C3 witness: the amended theorem applied at voltages 300/340/340
(average below 90% of rated 380) and currents 10/20/30 (unbalance 50%,
above the 10% limit) with FLA 100. -/
theorem C3_accumulation_witness :
    avg3 300 340 340 > 0 ∧ avg3 300 340 340 < 380 * 0.9 ∧
    unbalance_pct 10 20 30 > IEC_CURRENT_UNBALANCE_MAX ∧
    EIssue.UnderVoltage ∈ electrical_issues 300 340 340 10 20 30 100 380 ∧
    EIssue.CurrentUnbalance (unbalance_pct 10 20 30) ∈
      electrical_issues 300 340 340 10 20 30 100 380 :=
  ⟨by norm_num [avg3], by norm_num [avg3],
    by norm_num [unbalance_pct, avg3, maxDev3, IEC_CURRENT_UNBALANCE_MAX],
    ((C3_accumulation 300 340 340 10 20 30 100 380).2.1 (by norm_num [avg3])
      (by norm_num [avg3])).1,
    (C3_accumulation 300 340 340 10 20 30 100 380).2.2
      (by norm_num [unbalance_pct, avg3, maxDev3, IEC_CURRENT_UNBALANCE_MAX])⟩

/-- Claim C7 (confirmed): for phase voltages 342/380/380 with rated voltage
380, whatever the currents and FLA, `check_electrical` does not flag
"Under Voltage" (the rule uses the average 1102/3 ≈ 367.3, which is not
below 90% of rated, even though the minimum phase 342 alone is) but does
flag "Voltage Unbalance" with percentage 200/29 ≈ 6.9% (max deviation
76/3 ≈ 25.3 over the average), which exceeds the 1.0% limit. -/
theorem C7_average_not_minimum (i_r i_s i_t fla : ℚ) :
    unbalance_pct 342 380 380 = 200 / 29 ∧
    unbalance_pct 342 380 380 > IEC_VOLTAGE_UNBALANCE_MAX ∧
    EIssue.UnderVoltage ∉ (check_electrical 342 380 380 i_r i_s i_t fla 380).1 ∧
    EIssue.VoltageUnbalance (200 / 29) ∈
      (check_electrical 342 380 380 i_r i_s i_t fla 380).1 := by
  have hpct : unbalance_pct 342 380 380 = 200 / 29 := unbalance_pct_342_380_380
  have hvolt : voltage_issues 342 380 380 380 = [EIssue.VoltageUnbalance (200 / 29)] := by
    unfold voltage_issues
    rw [if_neg (by norm_num [avg3]), if_pos (by rw [hpct]; norm_num [IEC_VOLTAGE_UNBALANCE_MAX]),
      hpct]
  refine ⟨hpct, by rw [hpct]; norm_num [IEC_VOLTAGE_UNBALANCE_MAX], ?_, ?_⟩
  · rw [check_electrical_fst]
    unfold electrical_issues
    rw [hvolt]
    simp only [List.mem_append, List.mem_singleton]
    rintro ((hc | hc) | hc)
    · exact absurd hc (by simp)
    · exact underVoltage_not_mem_load i_r i_s i_t fla hc
    · exact underVoltage_not_mem_current i_r i_s i_t hc
  · rw [check_electrical_fst]
    unfold electrical_issues
    rw [hvolt]
    simp

lemma iso_rank_mono (g : MachineGroup) (f : Foundation) (v1 v2 : ℚ) (hlt : v1 < v2) :
    levelRank (get_iso_severity g f v1).level ≤ levelRank (get_iso_severity g f v2).level := by
  unfold get_iso_severity
  split_ifs <;> simp [levelRank] <;> linarith

lemma api_rank_mono (v1 v2 : ℚ) (hlt : v1 < v2) :
    levelRank (get_api_610_status v1).level ≤ levelRank (get_api_610_status v2).level := by
  unfold get_api_610_status
  split_ifs <;> simp [levelRank] <;> linarith

lemma iso_level_zone (g : MachineGroup) (f : Foundation) (v : ℚ) :
    ((get_iso_severity g f v).level = "normal" ↔
      (get_iso_severity g f v).zone = "Zone A (Good)") ∧
    ((get_iso_severity g f v).level = "warning" ↔
      (get_iso_severity g f v).zone = "Zone B (Satisfactory)") ∧
    ((get_iso_severity g f v).level = "critical" ↔
      ((get_iso_severity g f v).zone = "Zone C (Unsatisfactory)" ∨
       (get_iso_severity g f v).zone = "Zone D (Unacceptable)")) := by
  unfold get_iso_severity
  split_ifs <;> refine ⟨?_, ?_, ?_⟩ <;> simp <;> decide

lemma api_level_zone (v : ℚ) :
    ((get_api_610_status v).level = "normal" ↔
      (get_api_610_status v).zone = "✅ Acceptable") ∧
    ((get_api_610_status v).level = "warning" ↔
      (get_api_610_status v).zone = "⚠️ Alert") ∧
    ((get_api_610_status v).level = "critical" ↔
      ((get_api_610_status v).zone = "🛑 Trip Warning" ∨
       (get_api_610_status v).zone = "🚨 Trip Required")) := by
  unfold get_api_610_status
  split_ifs <;> refine ⟨?_, ?_, ?_⟩ <;> simp <;> decide

/-- Claim C4 (confirmed): for every machine group and foundation type, and
for the API 610 table, the severity classifier is monotonic under the
ordering normal < warning < critical (encoded by `levelRank`): `v1 < v2`
implies `level(v1) ≤ level(v2)`; and the first zone carries level
"normal", the second "warning", and the third and beyond "critical", for
both classifiers. -/
theorem C4_severity_monotone (g : MachineGroup) (f : Foundation) (v1 v2 v : ℚ) :
    (v1 < v2 →
      levelRank (get_iso_severity g f v1).level ≤
        levelRank (get_iso_severity g f v2).level ∧
      levelRank (get_api_610_status v1).level ≤
        levelRank (get_api_610_status v2).level) ∧
    ((get_iso_severity g f v).level = "normal" ↔
      (get_iso_severity g f v).zone = "Zone A (Good)") ∧
    ((get_iso_severity g f v).level = "warning" ↔
      (get_iso_severity g f v).zone = "Zone B (Satisfactory)") ∧
    ((get_iso_severity g f v).level = "critical" ↔
      ((get_iso_severity g f v).zone = "Zone C (Unsatisfactory)" ∨
       (get_iso_severity g f v).zone = "Zone D (Unacceptable)")) ∧
    ((get_api_610_status v).level = "normal" ↔
      (get_api_610_status v).zone = "✅ Acceptable") ∧
    ((get_api_610_status v).level = "warning" ↔
      (get_api_610_status v).zone = "⚠️ Alert") ∧
    ((get_api_610_status v).level = "critical" ↔
      ((get_api_610_status v).zone = "🛑 Trip Warning" ∨
       (get_api_610_status v).zone = "🚨 Trip Required")) :=
  ⟨fun hlt => ⟨iso_rank_mono g f v1 v2 hlt, api_rank_mono v1 v2 hlt⟩,
    (iso_level_zone g f v).1, (iso_level_zone g f v).2.1, (iso_level_zone g f v).2.2,
    (api_level_zone v).1, (api_level_zone v).2.1, (api_level_zone v).2.2⟩

/-- Claim C4 witness: monotonicity applied to the concrete pair 1 < 4 on
Group 2 with rigid foundation (levels normal and critical) and on the API
610 table (levels normal and warning). -/
theorem C4_severity_monotone_witness :
    (1:ℚ) < 4 ∧
    levelRank (get_iso_severity MachineGroup.group2 Foundation.rigid 1).level ≤
      levelRank (get_iso_severity MachineGroup.group2 Foundation.rigid 4).level ∧
    levelRank (get_api_610_status 1).level ≤ levelRank (get_api_610_status 4).level :=
  ⟨by norm_num,
    ((C4_severity_monotone MachineGroup.group2 Foundation.rigid 1 4 0).1 (by norm_num)).1,
    ((C4_severity_monotone MachineGroup.group2 Foundation.rigid 1 4 0).1 (by norm_num)).2⟩

/-- Claim C6 (confirmed): for every band triplet with positive total below
the critical limit 10.0, the bearing-acceleration evaluator reports "Early
Bearing Fault" whenever the high-frequency ratio `b3 / total` exceeds 0.4
OR the high band `b3` reaches 3.0, each trigger sufficient on its own; in
particular bands (1,1,3) with total 5.0 and ratio 0.6 yield "Early Bearing
Fault". -/
theorem C6_early_bearing_fault :
    (∀ b1 b2 b3 : ℚ, 0 < b1 + b2 + b3 → b1 + b2 + b3 < ACC_Critical →
      (b3 / (b1 + b2 + b3) > 0.4 ∨ b3 ≥ 3.0) →
      bearing_acc_status b1 b2 b3 = "🟠 Early Bearing Fault") ∧
    bearing_acc_status 1 1 3 = "🟠 Early Bearing Fault" := by
  constructor
  · intro b1 b2 b3 h0 hlt htrig
    unfold bearing_acc_status
    rw [if_pos h0, if_neg (not_le.mpr hlt), if_pos ?_]
    rcases htrig with ht | ht
    · exact Or.inl ht
    · exact Or.inr (Or.inl ht)
  · norm_num [bearing_acc_status, ACC_Critical, ACC_Warning, ACC_Normal]

/-- Claim C6 witness: the escalation rule applied at bands (1,1,3), where
the total is 5 and the high-band ratio 3/5 exceeds 0.4. -/
theorem C6_early_bearing_fault_witness :
    (0:ℚ) < 1 + 1 + 3 ∧ (1:ℚ) + 1 + 3 < ACC_Critical ∧
    bearing_acc_status 1 1 3 = "🟠 Early Bearing Fault" :=
  ⟨by norm_num, by norm_num [ACC_Critical],
    C6_early_bearing_fault.1 1 1 3 (by norm_num) (by norm_num [ACC_Critical])
      (by norm_num)⟩

lemma diagnose_fault_checked_eq (h v a s : ℚ) :
    diagnose_fault_checked h v a s = some (diagnose_fault h v a s) := by
  unfold diagnose_fault_checked diagnose_fault cdiv
  by_cases hs : s = 0
  · simp [hs]
  · simp [hs]

lemma unbalance_pct_checked_eq (x y z : ℚ) :
    unbalance_pct_checked x y z = some (unbalance_pct x y z) := by
  unfold unbalance_pct_checked unbalance_pct cdiv
  by_cases h : avg3 x y z > 0
  · simp [h, h.ne']
  · simp [h]

lemma voltage_issues_checked_eq (v_r v_s v_t rated_voltage : ℚ) :
    voltage_issues_checked v_r v_s v_t rated_voltage =
      some (voltage_issues v_r v_s v_t rated_voltage) := by
  unfold voltage_issues_checked voltage_issues
  rw [unbalance_pct_checked_eq]
  rfl

lemma load_issues_checked_eq (i_r i_s i_t fla : ℚ) :
    load_issues_checked i_r i_s i_t fla = some (load_issues i_r i_s i_t fla) := by
  unfold load_issues_checked load_issues cdiv
  by_cases h : fla > 0 ∧ avg3 i_r i_s i_t > 0
  · rw [if_pos h, if_pos h, if_neg (absurd · h.1.ne')]
    rfl
  · rw [if_neg h, if_neg h]

lemma current_issues_checked_eq (i_r i_s i_t : ℚ) :
    current_issues_checked i_r i_s i_t = some (current_issues i_r i_s i_t) := by
  unfold current_issues_checked current_issues
  rw [unbalance_pct_checked_eq]
  rfl

lemma electrical_issues_checked_eq (v_r v_s v_t i_r i_s i_t fla rated_voltage : ℚ) :
    electrical_issues_checked v_r v_s v_t i_r i_s i_t fla rated_voltage =
      some (electrical_issues v_r v_s v_t i_r i_s i_t fla rated_voltage) := by
  unfold electrical_issues_checked electrical_issues
  rw [voltage_issues_checked_eq, load_issues_checked_eq, current_issues_checked_eq]
  rfl

lemma hydraulic_issues_checked_eq (suction_p discharge_p flow_q head_h actual_rpm rated_rpm : ℚ) :
    hydraulic_issues_checked suction_p discharge_p flow_q head_h actual_rpm rated_rpm =
      some (hydraulic_issues suction_p discharge_p flow_q head_h actual_rpm rated_rpm) := by
  unfold hydraulic_issues_checked hydraulic_issues cdiv
  by_cases h1 : flow_q > 0 ∧ head_h > 0
  · by_cases h2 : discharge_p - suction_p > 0 ∧ head_h / 10.2 > 0
    · rw [if_pos h1, if_pos h1, if_pos h2, if_pos h2, if_neg (absurd · h2.2.ne')]
      by_cases h3 : rated_rpm > 0 ∧ actual_rpm > 0
      · rw [if_pos h3, if_pos h3, if_neg (absurd · h3.1.ne')]
        rfl
      · rw [if_neg h3, if_neg h3]
        rfl
    · rw [if_pos h1, if_pos h1, if_neg h2, if_neg h2]
      by_cases h3 : rated_rpm > 0 ∧ actual_rpm > 0
      · rw [if_pos h3, if_pos h3, if_neg (absurd · h3.1.ne')]
        rfl
      · rw [if_neg h3, if_neg h3]
        rfl
  · rw [if_neg h1, if_neg h1]
    by_cases h3 : rated_rpm > 0 ∧ actual_rpm > 0
    · rw [if_pos h3, if_pos h3, if_neg (absurd · h3.1.ne')]
      rfl
    · rw [if_neg h3, if_neg h3]
      rfl

lemma bearing_acc_status_checked_eq (b1 b2 b3 : ℚ) :
    bearing_acc_status_checked b1 b2 b3 = some (bearing_acc_status b1 b2 b3) := by
  unfold bearing_acc_status_checked bearing_acc_status cdiv
  by_cases h : b1 + b2 + b3 > 0
  · rw [if_pos h, if_pos h, if_neg (absurd · h.ne')]
    rfl
  · rw [if_neg h, if_neg h]

/-- Claim C5 (confirmed): no evaluator divides by zero.  `diagnose_fault`
at the all-zero reading (sum = 0) returns no fault rather than crashing,
and each evaluator re-embedded with checked division (`cdiv`, which fails
exactly where Python would raise `ZeroDivisionError`) succeeds on every
input and agrees with the direct embedding: every ratio — the axial/sum
ratios, voltage and current unbalance over the average, load over FLA,
high-frequency band over acceleration total, RPM deviation over rated
RPM — sits behind a zero guard that short-circuits to a defined no-issue
result. -/
theorem C5_no_division_by_zero :
    diagnose_fault 0 0 0 0 = none ∧
    (∀ h v a s : ℚ, diagnose_fault_checked h v a s = some (diagnose_fault h v a s)) ∧
    (∀ v_r v_s v_t i_r i_s i_t fla rated_voltage : ℚ,
      electrical_issues_checked v_r v_s v_t i_r i_s i_t fla rated_voltage =
        some (electrical_issues v_r v_s v_t i_r i_s i_t fla rated_voltage)) ∧
    (∀ suction_p discharge_p flow_q head_h actual_rpm rated_rpm : ℚ,
      hydraulic_issues_checked suction_p discharge_p flow_q head_h actual_rpm rated_rpm =
        some (hydraulic_issues suction_p discharge_p flow_q head_h actual_rpm rated_rpm)) ∧
    (∀ b1 b2 b3 : ℚ,
      bearing_acc_status_checked b1 b2 b3 = some (bearing_acc_status b1 b2 b3)) :=
  ⟨by norm_num [diagnose_fault], diagnose_fault_checked_eq,
    electrical_issues_checked_eq, hydraulic_issues_checked_eq,
    bearing_acc_status_checked_eq⟩

/-- Claim C8 (counterexample): for an all-zero vibration reading the
severity classifier does not report absence of data — `get_iso_severity`
at max velocity 0 (here Group 1, rigid foundation) returns the healthy
"Zone A (Good)" verdict with level "normal". -/
theorem C8_counterexample :
    (get_iso_severity MachineGroup.group1 Foundation.rigid 0).zone = "Zone A (Good)" ∧
    (get_iso_severity MachineGroup.group1 Foundation.rigid 0).level = "normal" := by
  norm_num [get_iso_severity, ISO_10816_THRESHOLDS]

/-- Claim C8 (amended): a temperature reading of 0 is interpreted as "no
data" (`check_temperature` returns the No-Data status at level "normal"),
but an all-zero vibration reading (h=0, v=0, a=0, so max = 0) is NOT
reported as absence of data: both severity classifiers return their
healthy first zone ("Zone A (Good)" / "✅ Acceptable") at level
"normal". -/
theorem C8_zero_input :
    check_temperature 0 = ("⚪ No Data", "normal") ∧
    (∀ g f, (get_iso_severity g f 0).zone = "Zone A (Good)" ∧
      (get_iso_severity g f 0).level = "normal") ∧
    (get_api_610_status 0).zone = "✅ Acceptable" ∧
    (get_api_610_status 0).level = "normal" := by
  refine ⟨by norm_num [check_temperature], fun g f => ?_,
    by norm_num [get_api_610_status, API_610_Normal],
    by norm_num [get_api_610_status, API_610_Normal]⟩
  cases g <;> cases f <;> norm_num [get_iso_severity, ISO_10816_THRESHOLDS]

/-- Claim C9 (confirmed): the level returned by `check_electrical` is
always "normal" or "warning", and is "warning" exactly when at least one
electrical issue was flagged; likewise `check_hydraulic` returns only
"normal" or "warning" ("warning" exactly when an issue was flagged) —
neither evaluator ever returns a "critical" level. -/
theorem C9_never_critical (v_r v_s v_t i_r i_s i_t fla rated_voltage
    suction_p discharge_p flow_q head_h actual_rpm rated_rpm : ℚ) :
    ((check_electrical v_r v_s v_t i_r i_s i_t fla rated_voltage).2 = "normal" ∨
      (check_electrical v_r v_s v_t i_r i_s i_t fla rated_voltage).2 = "warning") ∧
    ((check_electrical v_r v_s v_t i_r i_s i_t fla rated_voltage).2 = "warning" ↔
      (check_electrical v_r v_s v_t i_r i_s i_t fla rated_voltage).1 ≠ []) ∧
    ((check_hydraulic suction_p discharge_p flow_q head_h actual_rpm rated_rpm).2 = "normal" ∨
      (check_hydraulic suction_p discharge_p flow_q head_h actual_rpm rated_rpm).2 = "warning") ∧
    ((check_hydraulic suction_p discharge_p flow_q head_h actual_rpm rated_rpm).2 = "warning" ↔
      (check_hydraulic suction_p discharge_p flow_q head_h actual_rpm rated_rpm).1 ≠ []) := by
  refine ⟨?_, ?_, ?_, ?_⟩
  · unfold check_electrical
    split_ifs with hc <;> simp [hc]
  · unfold check_electrical
    split_ifs with hc <;> simp [hc]
  · unfold check_hydraulic
    split_ifs with hc <;> simp [hc]
  · unfold check_hydraulic
    split_ifs with hc <;> simp [hc]

/-- Claim C10 (confirmed): at the concrete reading h=v=a=3.0 on Group 1
with rigid foundation (a motor bearing, so the ISO table applies), the
vibration severity is "warning" (Zone B), no fault pattern matches
(`diagnose_fault` returns none), the temperature level is "normal", and the
bearing contributes no entry to `final_report`; an empty `final_report`
yields the all-clear "STATUS AMAN" conclusion, so such a warning-level
reading alone produces the all-clear result. -/
theorem C10_silent_warning :
    (get_iso_severity MachineGroup.group1 Foundation.rigid 3).level = "warning" ∧
    diagnose_fault 3 3 3 (3 + 3 + 3) = none ∧
    (check_temperature 0).2 = "normal" ∧
    bearing_report_entries "Motor DE (B1)" MachineGroup.group1 Foundation.rigid
      true false 3 3 3 0 = [] ∧
    safety_conclusion [] = "STATUS AMAN" := by
  refine ⟨?_, ?_, ?_, ?_, ?_⟩
  · norm_num [get_iso_severity, ISO_10816_THRESHOLDS]
  · norm_num [diagnose_fault]
  · norm_num [check_temperature]
  · norm_num [bearing_report_entries, bearing_severity, bearing_fault,
      get_iso_severity, ISO_10816_THRESHOLDS, check_temperature, diagnose_fault]
    decide
  · simp [safety_conclusion]

end PumpDiag
